import Mathlib

/-!
Verification development for a sampled slice of the dagster repository.

The development shallowly embeds five Python source files and proves the
specified properties about the embedded operations:

* `python_modules/dagster/dagster/_config/structured_config.py`
  (namespace `StructuredConfig`),
* `python_modules/dagster/dagster/_core/definitions/metadata/table.py`
  (namespace `TableMeta`),
* `python_modules/dagster-graphql/dagster_graphql/implementation/fetch_partition_sets.py`
  (namespace `FetchPartitionSets`),
* `python_modules/dagster/dagster/_core/reactive_scheduling/scheduling_policy.py`
  (namespace `ReactiveScheduling`),
* `examples/with_openai/with_configs.py` (namespace `WithOpenAI`).

Python strings are modeled by `String`; where string comparisons must be
evaluated inside proofs, they are performed on the code-point lists
(`String.data.map Char.toNat`), which coincides with Python comparison
semantics on strings.
-/

/-- Python str.endswith, evaluated on code-point lists. -/
def strEndsWith (s suffixStr : String) : Bool :=
  (suffixStr.data.map Char.toNat).isSuffixOf (s.data.map Char.toNat)

/-- Python whitespace test used by str.strip. -/
def isPySpace (c : Char) : Bool :=
  c.toNat = 32 || c.toNat = 9 || c.toNat = 10 || c.toNat = 13 || c.toNat = 11 || c.toNat = 12

/-- Python str.strip with no arguments: drop leading and trailing whitespace. -/
def pyStrip (s : String) : String :=
  String.mk (((s.data.dropWhile isPySpace).reverse.dropWhile isPySpace).reverse)

namespace StructuredConfig

/-!
Embedding of `dagster/_config/structured_config.py`.

A pydantic `ModelField` is embedded as `PydanticField`, carrying the field
inner type (`type_`), its cardinality descriptor (`shape`), its declared
default (`default`, where a field with no declared default has the Python
value `None` there, exactly as in pydantic v1) and its
`field_info.description`.  A declared configuration-record class
(a subclass of the `Config` base class in the source) is embedded as
`ConfigClass`, carrying its docstring and its ordered `__fields__` mapping.
-/

/-- A Python value, as far as defaults are concerned. -/
inductive PyVal where
  | pyNone
  | pyBool (b : Bool)
  | pyInt (n : Int)
  | pyStr (s : String)
deriving DecidableEq

/-- Python truthiness of a `PyVal`. -/
def PyVal.truthy : PyVal → Bool
  | .pyNone => false
  | .pyBool b => b
  | .pyInt n => n != 0
  | .pyStr s => s != ""

/-- A plain (non-`Config`) type annotation appearing on a pydantic field. -/
inductive PyPrim where
  | pyStr
  | pyInt
  | pyBool
  | pyFloat
  | unsupported (typeName : String)
deriving DecidableEq

/-- A dagster config type, as produced by `convert_potential_field(...).config_type`. -/
inductive DagsterConfigType where
  | stringT
  | intT
  | boolT
  | floatT
deriving DecidableEq

/-- The pydantic field shape constants (`SHAPE_SINGLETON`, `SHAPE_LIST`, ...). -/
inductive PydanticShape where
  | singleton
  | list
  | set
  | mapping
  | tuple
  | dict
  | sequence
deriving DecidableEq

/-- The errors the schema bridge can raise at construction time:
`NotImplementedError` for a non-singleton pydantic shape,
`DagsterInvalidDefinitionError` from `convert_potential_field` for a type it
cannot convert, and `CheckError` from `dagster._check.invariant`. -/
inductive SchemaError where
  | notImplementedShape (s : PydanticShape)
  | invalidDefinition (typeName : String)
  | checkError (msg : String)
deriving DecidableEq

mutual
/-- A configuration-record class: its docstring and its `__fields__`. -/
inductive ConfigClass where
  | mk (doc : Option String) (fields : List (String × PydanticField))

/-- A pydantic `ModelField`. -/
inductive PydanticField where
  | mk (type_ : PydanticFieldType) (shape : PydanticShape) (default : PyVal)
      (description : Option String)

/-- The inner type of a pydantic field: either a `Config` subclass or a plain
type annotation. -/
inductive PydanticFieldType where
  | prim (t : PyPrim)
  | config (c : ConfigClass)
end

/-- The default slot of a dagster `Field`: either the
`FIELD_NO_DEFAULT_PROVIDED` sentinel or a provided value. -/
inductive FieldDefault where
  | noDefaultProvided
  | provided (v : PyVal)
deriving DecidableEq

/-- A dagster config `Field`: a leaf built around a converted config type, or
a record node built around `Shape(fields)`. -/
inductive Field where
  | leaf (config : DagsterConfigType) (description : Option String)
      (default_value : FieldDefault)
  | shape (fields : List (String × Field)) (description : Option String)
      (default_value : FieldDefault)

/-- `convert_potential_field(...).config_type` on a plain annotation: the
dagster config type, or `DagsterInvalidDefinitionError` for an annotation
dagster cannot convert. -/
def convert_potential_field : PyPrim → Except SchemaError DagsterConfigType
  | .pyStr => .ok .stringT
  | .pyInt => .ok .intT
  | .pyBool => .ok .boolT
  | .pyFloat => .ok .floatT
  | .unsupported n => .error (.invalidDefinition n)

/-- Python `a or b` on two optional strings (`description or docstring`). -/
def pyOrStr (a b : Option String) : Option String :=
  match a with
  | some s => if s = "" then b else some s
  | none => b

/-- `model_cls.__doc__.strip() if model_cls.__doc__ else None`. -/
def stripDocstring (doc : Option String) : Option String :=
  match doc with
  | some d => if d = "" then none else some (pyStrip d)
  | none => none

mutual
/-- Embeds `_convert_pydantic_field`: a `Config`-typed field recurses into
class inference; otherwise a non-singleton shape raises
`NotImplementedError`, and a singleton field becomes a leaf whose default is
the declared default when that value is truthy and the
`FIELD_NO_DEFAULT_PROVIDED` sentinel otherwise. -/
def _convert_pydantic_field : PydanticField → Except SchemaError Field
  | .mk t shp dflt descr =>
    match t with
    | .config c => infer_schema_from_config_class c descr
    | .prim p =>
      if shp ≠ PydanticShape.singleton then
        .error (.notImplementedShape shp)
      else
        match convert_potential_field p with
        | .error e => .error e
        | .ok ct =>
          .ok (.leaf ct descr
            (if dflt.truthy then .provided dflt else .noDefaultProvided))

/-- Conversion of the `__fields__` mapping, propagating the first raised
error, as the Python loop in `infer_schema_from_config_class` does. -/
def _convert_pydantic_fields :
    List (String × PydanticField) → Except SchemaError (List (String × Field))
  | [] => .ok []
  | (n, f) :: rest => do
    let fld ← _convert_pydantic_field f
    let flds ← _convert_pydantic_fields rest
    .ok ((n, fld) :: flds)

/-- Embeds `infer_schema_from_config_class`: convert every declared field,
then build a `Shape` record whose description is the passed description or,
failing that, the stripped class docstring. -/
def infer_schema_from_config_class (c : ConfigClass) (description : Option String) :
    Except SchemaError Field :=
  match c with
  | .mk doc fields => do
    let fs ← _convert_pydantic_fields fields
    .ok (.shape fs (pyOrStr description (stripDocstring doc)) .noDefaultProvided)
end

/-- A plain annotation or a `Config` subclass, as classified by
`_safe_is_subclass(model_cls, Config)`. -/
inductive AnnotatedType where
  | configCls (c : ConfigClass)
  | plain (t : PyPrim)

/-- The caller-supplied default of `infer_schema_from_config_annotation`:
either `inspect.Parameter.empty` or an actual value. -/
inductive ConfigArgDefault where
  | empty
  | value (v : PyVal)
deriving DecidableEq

/-- Embeds `infer_schema_from_config_annotation`: a `Config` subclass
delegates to class inference and requires that no default was supplied
(`check.invariant`); a plain annotation becomes a leaf field carrying the
supplied default, or the sentinel when the default is
`inspect.Parameter.empty`.  The empty-default test in the source is an
identity test, not a truthiness test. -/
def infer_schema_from_config_annotation :
    AnnotatedType → ConfigArgDefault → Except SchemaError Field
  | .configCls c, d =>
    if d ≠ ConfigArgDefault.empty then
      .error (.checkError "Cannot provide a default value when using a Config class")
    else
      infer_schema_from_config_class c none
  | .plain t, d =>
    match convert_potential_field t with
    | .error e => .error e
    | .ok ct =>
      .ok (.leaf ct none
        (match d with
         | .empty => .noDefaultProvided
         | .value v => .provided v))

end StructuredConfig

namespace TableMeta

/-!
Embedding of `dagster/_core/definitions/metadata/table.py`.

The classes there are pydantic models declared with plain field annotations,
so construction validates keyword arguments against the declared fields:
a field annotated with a non-`Optional` type and no assigned default is
required and constructing the model without it raises a `ValidationError`;
a field annotated `Optional[...]` with no assigned default defaults to
`None` (pydantic v1 semantics, matching the pydantic v1 imports used
elsewhere in this repository slice).  Each `construct` function below takes
one `Option` per keyword argument (`none` = argument omitted) and returns
`Except` to surface validation errors.  The module-level constant
`_DEFAULT_TABLE_COLUMN_CONSTRAINTS = TableColumnConstraints()` is evaluated
at import time in Python; its failure is modeled by propagating the
resulting error to every construction that needs the default.
-/

/-- A pydantic validation error listing the missing required fields. -/
inductive PydValidationError where
  | missingFields (names : List String)
deriving DecidableEq

/-- `TableConstraints`: table-level constraint descriptions. -/
structure TableConstraints where
  other : List String
deriving DecidableEq

/-- Keyword construction of `TableConstraints`; `other` is required. -/
def TableConstraints.construct (other : Option (List String)) :
    Except PydValidationError TableConstraints :=
  match other with
  | some o => .ok ⟨o⟩
  | none => .error (.missingFields ["other"])

/-- `_DEFAULT_TABLE_CONSTRAINTS = TableConstraints(other=[])`. -/
def _DEFAULT_TABLE_CONSTRAINTS : Except PydValidationError TableConstraints :=
  TableConstraints.construct (some [])

/-- `TableColumnConstraints`: nullability, uniqueness and free-text
constraints of one column. -/
structure TableColumnConstraints where
  nullable : Bool
  unique : Bool
  other : Option (List String)
deriving DecidableEq

/-- Keyword construction of `TableColumnConstraints`.  In the source,
`nullable : bool` and `unique : bool` carry no default, so both are
required; `other : Optional[Sequence[str]]` defaults to `None`. -/
def TableColumnConstraints.construct (nullable : Option Bool) (unique : Option Bool)
    (other : Option (Option (List String))) :
    Except PydValidationError TableColumnConstraints :=
  match nullable, unique with
  | some n, some u => .ok ⟨n, u, other.getD none⟩
  | _, _ =>
    .error (.missingFields
      ((if nullable.isNone then ["nullable"] else []) ++
        (if unique.isNone then ["unique"] else [])))

/-- `_DEFAULT_TABLE_COLUMN_CONSTRAINTS = TableColumnConstraints()`. -/
def _DEFAULT_TABLE_COLUMN_CONSTRAINTS : Except PydValidationError TableColumnConstraints :=
  TableColumnConstraints.construct none none none

/-- `TableColumn`: name, type, optional description, constraints. -/
structure TableColumn where
  name : String
  type_ : String
  description : Option String
  constraints : TableColumnConstraints
deriving DecidableEq

/-- Keyword construction of `TableColumn`: `type` defaults to `"string"`,
`description` defaults to `None`, `constraints` defaults to the module
constant `_DEFAULT_TABLE_COLUMN_CONSTRAINTS`. -/
def TableColumn.construct (name : String) (type_ : Option String)
    (description : Option (Option String)) (constraints : Option TableColumnConstraints) :
    Except PydValidationError TableColumn := do
  let cs ← match constraints with
    | some c => Except.ok c
    | none => _DEFAULT_TABLE_COLUMN_CONSTRAINTS
  .ok ⟨name, type_.getD "string", description.getD none, cs⟩

/-- `TableSchema`: ordered columns plus table-level constraints. -/
structure TableSchema where
  columns : List TableColumn
  constraints : TableConstraints
deriving DecidableEq

/-- Keyword construction of `TableSchema`: `constraints` defaults to
`_DEFAULT_TABLE_CONSTRAINTS`. -/
def TableSchema.construct (columns : List TableColumn) (constraints : Option TableConstraints) :
    Except PydValidationError TableSchema := do
  let cs ← match constraints with
    | some c => Except.ok c
    | none => _DEFAULT_TABLE_CONSTRAINTS
  .ok ⟨columns, cs⟩

/-- Embeds `TableSchema.from_name_type_dict`: one `TableColumn(name=name,
type=type_str)` per mapping entry, in mapping order, gathered into a
`TableSchema` with default table-level constraints. -/
def TableSchema.from_name_type_dict (name_type_dict : List (String × String)) :
    Except PydValidationError TableSchema := do
  let cols ← name_type_dict.mapM
    (fun nt => TableColumn.construct nt.1 (some nt.2) none none)
  TableSchema.construct cols none

end TableMeta

namespace ReactiveScheduling

/-!
Embedding of `dagster/_core/reactive_scheduling/scheduling_policy.py`.

The base class `SchedulingPolicy` declares `schedule`,
`react_to_downstream_request` and `react_to_upstream_request` with ellipsis
bodies: calling them on the base class returns the Python value `None`,
modeled as `Option.none`.  `DefaultSchedulingPolicy` overrides the first two
with constructed results.  Method dispatch over the two classes in the file
is modeled by `PolicyImpl`.
-/

/-- `AssetKeyPartitionKey`, the asset-partition argument type. -/
structure AssetPartition where
  asset_key : String
  partition_key : Option String
deriving DecidableEq

/-- `SchedulingResult(launch, partition_keys=None)`. -/
structure SchedulingResult where
  launch : Bool
  partition_keys : Option (List String)
deriving DecidableEq

/-- `SchedulingExecutionContext`: evaluation time plus opaque references to
the repository definition and the instance. -/
structure SchedulingExecutionContext where
  evaluation_time : Int
  repository_def : Unit
  dagster_instance : Unit
deriving DecidableEq

/-- `RequestReaction(include)`. -/
structure RequestReaction where
  include_req : Bool
deriving DecidableEq

/-- The two policy classes defined in the file. -/
inductive PolicyImpl where
  | base
  | defaultPolicy
deriving DecidableEq

/-- `schedule`: the base class body is a bare ellipsis, so the call returns
`None`; `DefaultSchedulingPolicy` returns `SchedulingResult(launch=False)`,
whose `partition_keys` defaults to `None`. -/
def schedule : PolicyImpl → SchedulingExecutionContext → Option SchedulingResult
  | .base, _ => none
  | .defaultPolicy, _ => some ⟨false, none⟩

/-- `react_to_downstream_request`: `None` from the base class,
`RequestReaction(include=False)` from `DefaultSchedulingPolicy`. -/
def react_to_downstream_request :
    PolicyImpl → SchedulingExecutionContext → AssetPartition → Option RequestReaction
  | .base, _, _ => none
  | .defaultPolicy, _, _ => some ⟨false⟩

/-- `react_to_upstream_request`: not overridden by `DefaultSchedulingPolicy`,
so both classes return `None`. -/
def react_to_upstream_request :
    PolicyImpl → SchedulingExecutionContext → AssetPartition → Option RequestReaction
  | _, _, _ => none

end ReactiveScheduling

namespace FetchPartitionSets

/-!
Embedding of `dagster_graphql/implementation/fetch_partition_sets.py`.

The repository snapshot held by the host is `ExternalRepository`: a handle
plus the list returned by `get_external_partition_sets()`.  The graphene
result nodes `PartitionSets`, `PartitionSet` and `PartitionSetNotFoundError`
are embedded as plain structures.  `capture_dauphin_error` wraps each
resolver; the embedded resolvers are total functions, so the wrapper has
nothing to catch.
-/

/-- `RepositoryHandle` (opaque beyond identity). -/
structure RepositoryHandle where
  repository_name : String
deriving DecidableEq

/-- `ExternalPartitionSet`: owning pipeline name, mode and name. -/
structure ExternalPartitionSet where
  pipeline_name : String
  mode : String
  name : String
deriving DecidableEq

/-- The host repository snapshot. -/
structure ExternalRepository where
  handle : RepositoryHandle
  partition_sets : List ExternalPartitionSet

/-- The graphene `PartitionSet` node: a partition set wrapped with the
owning repository handle. -/
structure PartitionSetNode where
  external_repository_handle : RepositoryHandle
  external_partition_set : ExternalPartitionSet
deriving DecidableEq

/-- The graphene `PartitionSets` node. -/
structure PartitionSetsNode where
  results : List PartitionSetNode
deriving DecidableEq

/-- Code points of a string, for Python-style string comparison. -/
def strKey (s : String) : List Nat := s.data.map Char.toNat

/-- The Python sort key `(pipeline_name, mode, name)`, compared
lexicographically component by component. -/
def psSortKey (p : ExternalPartitionSet) : Lex (List Nat × Lex (List Nat × List Nat)) :=
  toLex (strKey p.pipeline_name, toLex (strKey p.mode, strKey p.name))

/-- Boolean comparison used to embed Python `sorted(...)` on that key. -/
def psLe (a b : ExternalPartitionSet) : Bool :=
  decide (psSortKey a ≤ psSortKey b)

/-- The conditional filter statement of `get_partition_sets_or_error`: the
partition sets are filtered by owning pipeline name only when the
`pipeline_name` argument is truthy (in Python, both `None` and the empty
string are falsy and skip the filter). -/
def filtered_partition_sets (repo : ExternalRepository) (pipeline_name : Option String) :
    List ExternalPartitionSet :=
  match pipeline_name with
  | some s =>
    if s ≠ "" then
      repo.partition_sets.filter (fun p : ExternalPartitionSet => p.pipeline_name == s)
    else repo.partition_sets
  | none => repo.partition_sets

/-- Embeds `get_partition_sets_or_error`: take the repository partition
sets, apply the conditional pipeline-name filter, sort ascending by the
tuple `(pipeline_name, mode, name)` and wrap each partition set with the
repository handle. -/
def get_partition_sets_or_error (repo : ExternalRepository) (pipeline_name : Option String) :
    PartitionSetsNode :=
  ⟨((filtered_partition_sets repo pipeline_name).mergeSort psLe).map
    (fun p => ⟨repo.handle, p⟩)⟩

/-- The two result shapes of `get_partition_set`. -/
inductive GetPartitionSetResult where
  | partitionSetNode (node : PartitionSetNode)
  | partitionSetNotFoundError (partition_set_name : String)
deriving DecidableEq

/-- Embeds `get_partition_set`: linear scan for the first partition set with
the requested name, wrapped on success; a structured
`PartitionSetNotFoundError` carrying the requested name otherwise. -/
def get_partition_set (repo : ExternalRepository) (partition_set_name : String) :
    GetPartitionSetResult :=
  match repo.partition_sets.find? (fun p => p.name == partition_set_name) with
  | some p => .partitionSetNode ⟨repo.handle, p⟩
  | none => .partitionSetNotFoundError partition_set_name

end FetchPartitionSets

namespace WithOpenAI

/-!
Embedding of `examples/with_openai/with_configs.py`.

A langchain `Document` is its page content plus the `source` metadata URL.
The FAISS search index is modeled by the list of embedded chunk documents it
contains; `merge_from` appends the entries of its argument.
-/

/-- A langchain `Document` restricted to the fields the pipeline uses. -/
structure Document where
  page_content : String
  source : String
deriving DecidableEq

/-- The state of the shared `search_index.pickle` file. -/
inductive IndexFileState where
  | absent
  | emptyFile
  | written (entries : List Document)
deriving DecidableEq

/-- Acquiring `FileLock(SEARCH_INDEX_FILE)`.  py-filelock on Unix opens its
lock path with `os.O_RDWR | os.O_CREAT | os.O_TRUNC` before flocking it, and
the source passes the shared index file itself as the lock path, so
acquiring the lock creates the file when absent and truncates it to size 0
when present. -/
def fileLockAcquire : IndexFileState → IndexFileState
  | _ => .emptyFile

/-- Entries recoverable from the file: deserializing a written index yields
its entries; an absent or size-0 file yields nothing to merge. -/
def fileContents : IndexFileState → List Document
  | .written e => e
  | _ => []

/-- The body of the `with FileLock(...)` block in the `search_index` asset,
as a function of the file contents observed inside the block: when the file
is non-empty, deserialize the prior index and `merge_from` it into the newly
built one (new absorbs prior), then write; otherwise write the newly built
index. -/
def search_index_locked_body (new_index prior_entries : List Document) : List Document :=
  if prior_entries.length > 0 then new_index ++ prior_entries else new_index

/-- One full run of the persistence step of the `search_index` asset:
acquire the lock on the index file path, run the locked body on what is then
in the file, and write the result back. -/
def search_index_step (new_index : List Document) (file : IndexFileState) : IndexFileState :=
  .written (search_index_locked_body new_index (fileContents (fileLockAcquire file)))

/-- One entry of the question directory listing, with the data the sensor
reads: the filename, whether it is a regular file, its modification time,
and its JSON body (kept opaque as the configuration payload). -/
structure DirEntry where
  name : String
  is_file : Bool
  mtime : Nat
  contents_json : String
deriving DecidableEq

/-- The run configuration `{"ops": {"completion": {"config": ...}}}` built
around one question file payload. -/
structure RunConfig where
  ops_completion_config : String
deriving DecidableEq

/-- A `RunRequest`: idempotency key plus run configuration. -/
structure RunRequest where
  run_key : String
  run_config : RunConfig
deriving DecidableEq

/-- A `SensorResult`: the batch of run requests plus the new cursor.  The
cursor is the filename-to-mtime mapping; its JSON round trip through
`json.dumps`/`json.loads` is the identity on that mapping and is elided. -/
structure SensorResult where
  run_requests : List RunRequest
  cursor : List (String × Nat)
deriving DecidableEq

/-- Lookup in the decoded cursor mapping. -/
def lookupCursor (m : List (String × Nat)) (k : String) : Option Nat :=
  (m.find? (fun kv => kv.1 == k)).map (fun kv => kv.2)

/-- The filter in the sensor loop: `filename.endswith(".json") and
os.path.isfile(file_path)`. -/
def isQuestionFile (e : DirEntry) : Bool :=
  strEndsWith e.name ".json" && e.is_file

/-- The change test in the sensor loop: the filename is absent from the
previous cursor or its recorded modification time differs. -/
def fileChanged (previous_state : List (String × Nat)) (e : DirEntry) : Bool :=
  match lookupCursor previous_state e.name with
  | none => true
  | some t => t != e.mtime

/-- The run request emitted for one new-or-changed question file, keyed by
filename and modification time. -/
def questionRunRequest (e : DirEntry) : RunRequest :=
  ⟨"adhoc_request_" ++ e.name ++ "_" ++ Nat.repr e.mtime, ⟨e.contents_json⟩⟩

/-- One iteration of the sensor loop: a qualifying file is recorded in the
new cursor, and additionally emits a run request when new or changed; any
other directory entry is skipped. -/
def question_sensor_step (previous_state : List (String × Nat))
    (acc : List (String × Nat) × List RunRequest) (e : DirEntry) :
    List (String × Nat) × List RunRequest :=
  if isQuestionFile e then
    let current_state := acc.1 ++ [(e.name, e.mtime)]
    if fileChanged previous_state e then
      (current_state, acc.2 ++ [questionRunRequest e])
    else
      (current_state, acc.2)
  else acc

/-- Embeds the `question_sensor` evaluation: fold over the directory listing
accumulating the new cursor (every `*.json` regular file with its current
mtime) and the run requests (one per new-or-changed `*.json` file), then
return both as the `SensorResult`. -/
def question_sensor (dir_entries : List DirEntry) (previous_state : List (String × Nat)) :
    SensorResult :=
  let folded := dir_entries.foldl (question_sensor_step previous_state) ([], [])
  ⟨folded.2, folded.1⟩

/-- A file of the cloned repository below `docs/content/<category>`: path
components relative to that directory, plus its text. -/
structure RepoFile where
  rel_path : List String
  text : String
deriving DecidableEq

/-- `pathlib` glob pattern `*/<stem>`: exactly two path components, the
second ending with the given suffix (for the fixed patterns `*/*.md` and
`*/*.mdx` used by the source). -/
def matchesGlobTwoLevel (suffixStr : String) (f : RepoFile) : Bool :=
  match f.rel_path with
  | [_, basename] => strEndsWith basename suffixStr
  | _ => false

/-- A Markdown-family file anywhere below the category directory, the
enumeration domain named by the specification. -/
def isMarkdownFamilyFile (f : RepoFile) : Bool :=
  match f.rel_path.getLast? with
  | some basename => strEndsWith basename ".md" || strEndsWith basename ".mdx"
  | none => false

/-- Joining path components, as formatting a relative `PosixPath` does. -/
def joinPath (components : List String) : String :=
  String.intercalate "/" components

/-- The permanent source URL built for one enumerated file. -/
def github_blob_url (repo_owner repo_name git_sha : String) (rel_path : List String) : String :=
  "https://github.com/" ++ repo_owner ++ "/" ++ repo_name ++ "/blob/" ++ git_sha ++ "/" ++
    joinPath rel_path

/-- Embeds the enumeration and yield loop of `get_github_docs` after the
clone has produced the tree `docs_tree` at revision `git_sha`: list the
`*/*.md` matches, then the `*/*.mdx` matches, and yield one `Document` per
file with the file text as page content and the blob URL as source. -/
def get_github_docs (repo_owner repo_name git_sha category : String)
    (docs_tree : List RepoFile) : List Document :=
  let markdown_files :=
    docs_tree.filter (matchesGlobTwoLevel ".md") ++
      docs_tree.filter (matchesGlobTwoLevel ".mdx")
  markdown_files.map
    (fun f => ⟨f.text, github_blob_url repo_owner repo_name git_sha f.rel_path⟩)

end WithOpenAI

namespace FetchPartitionSets

/-- Concrete one-set repository fixture used by witnesses and
counterexamples. -/
def repo0 : ExternalRepository := ⟨⟨"repo0"⟩, [⟨"job1", "modeA", "p1"⟩]⟩

/-- Concrete three-set repository fixture matching the listing example of
the specification. -/
def repo2 : ExternalRepository :=
  ⟨⟨"repo2"⟩,
   [⟨"job2", "modeA", "p1"⟩, ⟨"job1", "modeB", "p2"⟩, ⟨"job1", "modeA", "p3"⟩]⟩

end FetchPartitionSets

namespace WithOpenAI

/-- Concrete question-file fixture used by the sensor witness. -/
def q1 : DirEntry := ⟨"q1.json", true, 1, "cfg1"⟩

/-- Concrete one-file documentation tree used by the ingestion witness. -/
def docsFixture : List RepoFile := [⟨["concepts", "assets.md"], "asset docs"⟩]

end WithOpenAI

/-!
Theorems.  Each claim has exactly one theorem (plus, where required, a
witness theorem and, for corrected claims, a counterexample theorem).
-/

namespace StructuredConfig

/-- Helper: binding a raised `Except` error propagates the error. -/
theorem except_error_bind {ε α β : Type} (e : ε) (f : α → Except ε β) :
    ((Except.error e : Except ε α) >>= f) = Except.error e := rfl

/-- Helper: binding a successful `Except` value applies the continuation. -/
theorem except_ok_bind {ε α β : Type} (a : α) (f : α → Except ε β) :
    ((Except.ok a : Except ε α) >>= f) = f a := rfl

/-- Helper: converting the field list fails whenever converting the field at
some position fails (the Python loop raises on the first bad field). -/
theorem convert_fields_error_of_elem
    (pre post : List (String × PydanticField)) (n : String) (f : PydanticField)
    (e : SchemaError) (hf : _convert_pydantic_field f = .error e) :
    ∃ e' : SchemaError,
      _convert_pydantic_fields (pre ++ (n, f) :: post) = .error e' := by
  induction pre with
  | nil =>
    exact ⟨e, by simp [_convert_pydantic_fields, hf, except_error_bind]⟩
  | cons hd tl ih =>
    obtain ⟨e', he'⟩ := ih
    cases hhd : _convert_pydantic_field hd.2 with
    | error e'' =>
      exact ⟨e'', by simp [_convert_pydantic_fields, hhd, except_error_bind]⟩
    | ok fld =>
      exact ⟨e', by
        simp [_convert_pydantic_fields, hhd, he', except_error_bind, except_ok_bind]⟩

/-- Claim C1: inferring a schema for a declared field whose inner type is a
plain (non-record) annotation and whose pydantic shape is anything other
than `SHAPE_SINGLETON` fails: the field conversion raises
`NotImplementedError` for that shape, never yields a field (no silent
coercion to a singleton node), and class inference over any
configuration-record class declaring such a field fails with an error. -/
theorem C1_nonsingleton_shape_fails
    (t : PyPrim) (shp : PydanticShape) (dflt : PyVal) (descr : Option String)
    (hshape : shp ≠ PydanticShape.singleton) :
    _convert_pydantic_field (.mk (.prim t) shp dflt descr) =
        .error (.notImplementedShape shp) ∧
    (∀ fld : Field,
      _convert_pydantic_field (.mk (.prim t) shp dflt descr) ≠ .ok fld) ∧
    (∀ (doc : Option String) (pre post : List (String × PydanticField))
        (n : String) (cdescr : Option String),
      ∃ e : SchemaError,
        infer_schema_from_config_class
            (.mk doc (pre ++ (n, .mk (.prim t) shp dflt descr) :: post)) cdescr =
          .error e) := by
  have hfield : _convert_pydantic_field (.mk (.prim t) shp dflt descr) =
      .error (.notImplementedShape shp) := by
    simp [_convert_pydantic_field, hshape]
  refine ⟨hfield, ?_, ?_⟩
  · intro fld h
    rw [hfield] at h
    exact Except.noConfusion h
  · intro doc pre post n cdescr
    obtain ⟨e', he'⟩ := convert_fields_error_of_elem pre post n _ _ hfield
    exact ⟨e', by simp [infer_schema_from_config_class, he', except_error_bind]⟩

/-- Witness for C1 at a concrete list-shaped integer field. -/
theorem C1_witness :
    PydanticShape.list ≠ PydanticShape.singleton ∧
    _convert_pydantic_field (.mk (.prim .pyInt) .list .pyNone none) =
      .error (.notImplementedShape .list) ∧
    (∃ e : SchemaError,
      infer_schema_from_config_class
          (.mk (some "A config class") [("xs", .mk (.prim .pyInt) .list .pyNone none)])
          none =
        .error e) :=
  ⟨by decide,
   (C1_nonsingleton_shape_fails .pyInt .list .pyNone none (by decide)).1,
   by
     have h :=
       (C1_nonsingleton_shape_fails .pyInt .list .pyNone none (by decide)).2.2
         (some "A config class") [] [] "xs" none
     simpa using h⟩

/-- Claim C2: for a configuration-record annotation, supplying a default
fails the `check.invariant` and supplying none delegates to class inference;
for a plain annotation (whenever dagster can convert it), the resulting
field carries the caller default when present and the
`FIELD_NO_DEFAULT_PROVIDED` sentinel otherwise. -/
theorem C2_annotation_defaults :
    (∀ (c : ConfigClass) (v : PyVal),
      infer_schema_from_config_annotation (.configCls c) (.value v) =
        .error (.checkError "Cannot provide a default value when using a Config class")) ∧
    (∀ c : ConfigClass,
      infer_schema_from_config_annotation (.configCls c) .empty =
        infer_schema_from_config_class c none) ∧
    (∀ (t : PyPrim) (ct : DagsterConfigType),
      convert_potential_field t = .ok ct →
        infer_schema_from_config_annotation (.plain t) .empty =
            .ok (.leaf ct none .noDefaultProvided) ∧
        ∀ v : PyVal,
          infer_schema_from_config_annotation (.plain t) (.value v) =
            .ok (.leaf ct none (.provided v))) := by
  refine ⟨?_, ?_, ?_⟩
  · intro c v
    simp [ infer_schema_from_config_annotation]
  · intro c
    simp [ infer_schema_from_config_annotation]
  · intro t ct hconv
    constructor
    · simp [ infer_schema_from_config_annotation, hconv]
    · intro v
      simp [ infer_schema_from_config_annotation, hconv]

/-- Witness for C2 at concrete annotations and defaults. -/
theorem C2_witness :
    convert_potential_field .pyStr = .ok .stringT ∧
    infer_schema_from_config_annotation (.plain .pyStr) .empty =
      .ok (.leaf .stringT none .noDefaultProvided) ∧
    infer_schema_from_config_annotation (.plain .pyStr) (.value (.pyBool false)) =
      .ok (.leaf .stringT none (.provided (.pyBool false))) ∧
    infer_schema_from_config_annotation (.configCls (.mk none [])) (.value (.pyInt 3)) =
      .error (.checkError "Cannot provide a default value when using a Config class") :=
  ⟨rfl,
   (C2_annotation_defaults.2.2 .pyStr .stringT rfl).1,
   (C2_annotation_defaults.2.2 .pyStr .stringT rfl).2 (.pyBool false),
   C2_annotation_defaults.1 (.mk none []) (.pyInt 3)⟩

/-- Claim C10: for a convertible singleton plain-typed field, a falsy
declared default is replaced by the `FIELD_NO_DEFAULT_PROVIDED` sentinel
and only a truthy declared default is kept in the produced field. -/
theorem C10_falsy_default_dropped
    (t : PyPrim) (ct : DagsterConfigType) (dflt : PyVal) (descr : Option String)
    (hconv : convert_potential_field t = .ok ct) :
    (dflt.truthy = false →
      _convert_pydantic_field (.mk (.prim t) .singleton dflt descr) =
        .ok (.leaf ct descr .noDefaultProvided)) ∧
    (dflt.truthy = true →
      _convert_pydantic_field (.mk (.prim t) .singleton dflt descr) =
        .ok (.leaf ct descr (.provided dflt))) := by
  constructor
  · intro hfalsy
    simp [_convert_pydantic_field, hconv, hfalsy]
  · intro htruthy
    simp [_convert_pydantic_field, hconv, htruthy]

/-- Witness for C10: the falsy defaults `False`, `0` and the empty string
are all dropped to the sentinel, while the truthy default `3` is kept. -/
theorem C10_witness :
    PyVal.truthy (.pyBool false) = false ∧
    _convert_pydantic_field (.mk (.prim .pyBool) .singleton (.pyBool false) none) =
      .ok (.leaf .boolT none .noDefaultProvided) ∧
    PyVal.truthy (.pyInt 0) = false ∧
    _convert_pydantic_field (.mk (.prim .pyInt) .singleton (.pyInt 0) none) =
      .ok (.leaf .intT none .noDefaultProvided) ∧
    PyVal.truthy (.pyStr "") = false ∧
    _convert_pydantic_field (.mk (.prim .pyStr) .singleton (.pyStr "") none) =
      .ok (.leaf .stringT none .noDefaultProvided) ∧
    PyVal.truthy (.pyInt 3) = true ∧
    _convert_pydantic_field (.mk (.prim .pyInt) .singleton (.pyInt 3) none) =
      .ok (.leaf .intT none (.provided (.pyInt 3))) :=
  ⟨by decide,
   (C10_falsy_default_dropped .pyBool .boolT (.pyBool false) none rfl).1 (by decide),
   by decide,
   (C10_falsy_default_dropped .pyInt .intT (.pyInt 0) none rfl).1 (by decide),
   by decide,
   (C10_falsy_default_dropped .pyStr .stringT (.pyStr "") none rfl).1 (by decide),
   by decide,
   (C10_falsy_default_dropped .pyInt .intT (.pyInt 3) none rfl).2 (by decide)⟩

end StructuredConfig

namespace TableMeta

/-- Claim C3 (counterexample): `from_name_type_dict({"a": "int",
"b": "string"})` does not produce a schema at all: attaching the default
column constraints fails with a pydantic validation error, because
`nullable` and `unique` are required fields with no declared default. -/
theorem C3_counterexample :
    TableSchema.from_name_type_dict [("a", "int"), ("b", "string")] =
      .error (.missingFields ["nullable", "unique"]) := by
  rfl

/-- Claim C3 (amended): the two columns are indeed built with names `a`,
`b` and types `int`, `string`, and table-level constraints do default to
empty, but the default column constraints are unconstructible — `nullable`
and `unique` are required fields with no declared default (only `other`
defaults to absent) — so the call fails with a validation error instead of
producing the schema. -/
theorem C3_from_name_type_dict :
    TableSchema.from_name_type_dict [("a", "int"), ("b", "string")] =
      .error (.missingFields ["nullable", "unique"]) ∧
    _DEFAULT_TABLE_COLUMN_CONSTRAINTS = .error (.missingFields ["nullable", "unique"]) ∧
    _DEFAULT_TABLE_CONSTRAINTS = .ok ⟨[]⟩ ∧
    TableColumnConstraints.construct (some false) (some false) none =
      .ok ⟨false, false, none⟩ ∧
    (∀ c : TableColumnConstraints,
      TableColumn.construct "a" (some "int") none (some c) = .ok ⟨"a", "int", none, c⟩ ∧
      TableColumn.construct "b" (some "string") none (some c) = .ok ⟨"b", "string", none, c⟩) := by
  refine ⟨rfl, rfl, rfl, rfl, ?_⟩
  intro c
  exact ⟨rfl, rfl⟩

end TableMeta

namespace ReactiveScheduling

/-- Claim C6 (counterexample): the abstract base `SchedulingPolicy` does not
return an inert result: its ellipsis-bodied `schedule` and
`react_to_downstream_request` return `None`, not `launch=False` /
`include=False` values. -/
theorem C6_counterexample :
    schedule .base ⟨0, (), ()⟩ = none ∧
    schedule .base ⟨0, (), ()⟩ ≠ some ⟨false, none⟩ ∧
    react_to_downstream_request .base ⟨0, (), ()⟩ ⟨"asset0", none⟩ = none ∧
    react_to_downstream_request .base ⟨0, (), ()⟩ ⟨"asset0", none⟩ ≠ some ⟨false⟩ := by
  refine ⟨rfl, ?_, rfl, ?_⟩ <;> decide

/-- Claim C6 (amended): for every context and asset-partition,
`DefaultSchedulingPolicy` returns `launch=False` with no partition keys from
`schedule` and `include=False` from `react_to_downstream_request`, while the
abstract base class returns `None` from both. -/
theorem C6_default_policy_inert
    (ctx : SchedulingExecutionContext) (ap : AssetPartition) :
    schedule .defaultPolicy ctx = some ⟨false, none⟩ ∧
    react_to_downstream_request .defaultPolicy ctx ap = some ⟨false⟩ ∧
    schedule .base ctx = none ∧
    react_to_downstream_request .base ctx ap = none :=
  ⟨rfl, rfl, rfl, rfl⟩

end ReactiveScheduling

namespace WithOpenAI

/-- Claim C7 (code bug): because the shared index file itself is used as the
lock file and acquiring the lock truncates it, a full persistence step
always ends with only the newly built index — the previously persisted
entries are discarded, for any two consecutive runs — even though the locked
body on its own would have merged a non-empty prior index additively. -/
theorem C7_lock_truncates_index :
    (∀ (a b : List Document) (file : IndexFileState),
      search_index_step b (search_index_step a file) = .written b) ∧
    (∀ (new_index prior : List Document), prior ≠ [] →
      search_index_locked_body new_index prior = new_index ++ prior) := by
  constructor
  · intro a b file
    simp [search_index_step, fileLockAcquire, fileContents, search_index_locked_body]
  · intro new_index prior hne
    simp [search_index_locked_body, List.length_pos.2 hne]

/-- Witness for C7: run one persists index `a`; run two persists only `b`,
although the locked body applied to the non-empty prior contents `a` would
have produced the merged `b ++ a`. -/
theorem C7_witness :
    search_index_step [⟨"chunk b", "source b"⟩]
        (search_index_step [⟨"chunk a", "source a"⟩] .absent) =
      .written [⟨"chunk b", "source b"⟩] ∧
    ([⟨"chunk a", "source a"⟩] : List Document) ≠ [] ∧
    search_index_locked_body [⟨"chunk b", "source b"⟩] [⟨"chunk a", "source a"⟩] =
      [⟨"chunk b", "source b"⟩, ⟨"chunk a", "source a"⟩] :=
  ⟨C7_lock_truncates_index.1 [⟨"chunk a", "source a"⟩] [⟨"chunk b", "source b"⟩] .absent,
   by decide,
   C7_lock_truncates_index.2 [⟨"chunk b", "source b"⟩] [⟨"chunk a", "source a"⟩] (by decide)⟩

end WithOpenAI

namespace WithOpenAI

/-- Helper: the sensor fold appends, to any accumulator, the cursor entries
of the qualifying files and the run requests of the new-or-changed ones, in
listing order. -/
theorem question_sensor_foldl (previous_state : List (String × Nat))
    (entries : List DirEntry) :
    ∀ acc : List (String × Nat) × List RunRequest,
      entries.foldl (question_sensor_step previous_state) acc =
        (acc.1 ++ (entries.filter isQuestionFile).map (fun e => (e.name, e.mtime)),
         acc.2 ++
           (entries.filter
               (fun e => isQuestionFile e && fileChanged previous_state e)).map
             questionRunRequest) := by
  induction entries with
  | nil => intro acc; simp
  | cons e rest ih =>
    intro acc
    by_cases hq : isQuestionFile e = true
    · by_cases hc : fileChanged previous_state e = true
      · simp [question_sensor_step, hq, hc, ih, List.filter_cons]
      · simp at hc
        simp [question_sensor_step, hq, hc, ih, List.filter_cons]
    · simp at hq
      simp [question_sensor_step, hq, ih, List.filter_cons]

/-- Claim C8: one sensor evaluation emits exactly one run request, keyed by
filename and modification time, per `*.json` regular file that is new or
changed relative to the previous cursor, none for the unchanged ones, and
returns as the new cursor the full filename-to-mtime mapping of the
qualifying files; moreover every emitted request comes from such a file. -/
theorem C8_question_sensor_spec (dir_entries : List DirEntry)
    (previous_state : List (String × Nat)) :
    (question_sensor dir_entries previous_state).run_requests =
      (dir_entries.filter
          (fun e => isQuestionFile e && fileChanged previous_state e)).map
        questionRunRequest ∧
    (question_sensor dir_entries previous_state).cursor =
      (dir_entries.filter isQuestionFile).map (fun e => (e.name, e.mtime)) ∧
    (∀ r ∈ (question_sensor dir_entries previous_state).run_requests,
      ∃ e ∈ dir_entries, isQuestionFile e = true ∧
        fileChanged previous_state e = true ∧ r = questionRunRequest e) := by
  have hfold := question_sensor_foldl previous_state dir_entries ([], [])
  refine ⟨?_, ?_, ?_⟩
  · simp [question_sensor, hfold]
  · simp [question_sensor, hfold]
  · intro r hr
    simp only [question_sensor, hfold, List.nil_append, List.mem_map,
      List.mem_filter, Bool.and_eq_true] at hr
    obtain ⟨e, ⟨he, hq, hc⟩, rfl⟩ := hr
    exact ⟨e, he, hq, hc, rfl⟩

/-- Witness for C8: on a directory holding the single new file `q1.json`,
the emitted request is traced back to that file. -/
theorem C8_witness :
    ∃ e ∈ [q1], isQuestionFile e = true ∧ fileChanged [] e = true ∧
      questionRunRequest q1 = questionRunRequest e :=
  (C8_question_sensor_spec [q1] []).2.2 (questionRunRequest q1) (by decide)

/-- Claim C9 (counterexample): a Markdown file sitting directly in the
category directory is a Markdown-family file under `docs/content/<category>`
but is not enumerated, because the source uses the one-level glob patterns
`*/*.md` and `*/*.mdx`. -/
theorem C9_counterexample :
    isMarkdownFamilyFile ⟨["readme.md"], "hello"⟩ = true ∧
    get_github_docs "dagster-io" "dagster" "deadbeef" "guides"
        [⟨["readme.md"], "hello"⟩] = [] := by
  exact ⟨by decide, rfl⟩

/-- Claim C9 (amended): ingestion yields one Document per `*.md` / `*.mdx`
file exactly one directory level below `docs/content/<category>` (the glob
patterns `*/*.md` and `*/*.mdx`), with page content equal to the file text
and source URL built from owner, repository, revision and the path relative
to the category directory; files at other depths are not enumerated. -/
theorem C9_get_github_docs_spec (repo_owner repo_name git_sha category : String)
    (docs_tree : List RepoFile) :
    (∀ f ∈ docs_tree,
      (matchesGlobTwoLevel ".md" f = true ∨ matchesGlobTwoLevel ".mdx" f = true) →
        (⟨f.text, github_blob_url repo_owner repo_name git_sha f.rel_path⟩ : Document) ∈
          get_github_docs repo_owner repo_name git_sha category docs_tree) ∧
    (∀ d ∈ get_github_docs repo_owner repo_name git_sha category docs_tree,
      ∃ f ∈ docs_tree,
        (matchesGlobTwoLevel ".md" f = true ∨ matchesGlobTwoLevel ".mdx" f = true) ∧
        d.page_content = f.text ∧
        d.source = github_blob_url repo_owner repo_name git_sha f.rel_path) ∧
    (get_github_docs repo_owner repo_name git_sha category docs_tree).length =
      (docs_tree.filter (matchesGlobTwoLevel ".md")).length +
        (docs_tree.filter (matchesGlobTwoLevel ".mdx")).length := by
  refine ⟨?_, ?_, ?_⟩
  · intro f hf hmatch
    simp only [get_github_docs, List.mem_map]
    refine ⟨f, ?_, rfl⟩
    simp only [List.mem_append, List.mem_filter]
    rcases hmatch with h | h
    · exact Or.inl ⟨hf, h⟩
    · exact Or.inr ⟨hf, h⟩
  · intro d hd
    simp only [get_github_docs, List.mem_map] at hd
    obtain ⟨f, hf, rfl⟩ := hd
    simp only [List.mem_append, List.mem_filter] at hf
    rcases hf with ⟨hf, h⟩ | ⟨hf, h⟩
    · exact ⟨f, hf, Or.inl h, rfl, rfl⟩
    · exact ⟨f, hf, Or.inr h, rfl, rfl⟩
  · simp [get_github_docs]

/-- Witness for C9: a file one level below the category directory is
enumerated with its text and blob URL. -/
theorem C9_witness :
    (⟨"asset docs",
        github_blob_url "dagster-io" "dagster" "deadbeef"
          ["concepts", "assets.md"]⟩ : Document) ∈
      get_github_docs "dagster-io" "dagster" "deadbeef" "guides" docsFixture :=
  (C9_get_github_docs_spec "dagster-io" "dagster" "deadbeef" "guides" docsFixture).1
    ⟨["concepts", "assets.md"], "asset docs"⟩ (by simp [docsFixture])
    (Or.inl (by decide))

end WithOpenAI

namespace FetchPartitionSets

/-- Claim C5: looking one partition set up by name returns the wrapped first
set bearing that exact name when one exists, and otherwise the structured
`PartitionSetNotFoundError` carrying exactly the requested name; the
embedded resolver is a total function, so no exception reaches the caller. -/
theorem C5_get_partition_set_spec (repo : ExternalRepository)
    (partition_set_name : String) :
    ((∃ p ∈ repo.partition_sets, p.name = partition_set_name) →
      ∃ p ∈ repo.partition_sets, p.name = partition_set_name ∧
        get_partition_set repo partition_set_name =
          .partitionSetNode ⟨repo.handle, p⟩) ∧
    ((∀ p ∈ repo.partition_sets, p.name ≠ partition_set_name) →
      get_partition_set repo partition_set_name =
        .partitionSetNotFoundError partition_set_name) := by
  constructor
  · rintro ⟨q, hq, hqname⟩
    cases hfind : repo.partition_sets.find? (fun p => p.name == partition_set_name) with
    | none =>
      exfalso
      have := List.find?_eq_none.mp hfind q hq
      simp [hqname] at this
    | some p =>
      refine ⟨p, List.mem_of_find?_eq_some hfind, ?_, ?_⟩
      · have := List.find?_some hfind
        simpa using this
      · simp [get_partition_set, hfind]
  · intro hall
    have hnone :
        repo.partition_sets.find? (fun p => p.name == partition_set_name) = none := by
      apply List.find?_eq_none.mpr
      intro p hp
      simpa using hall p hp
    simp [get_partition_set, hnone]

/-- Witness for C5: a present name is found and wrapped; an absent name
yields the structured not-found value carrying that name. -/
theorem C5_witness :
    (∃ p ∈ repo0.partition_sets, p.name = "p1" ∧
      get_partition_set repo0 "p1" = .partitionSetNode ⟨repo0.handle, p⟩) ∧
    get_partition_set repo0 "absent" = .partitionSetNotFoundError "absent" :=
  ⟨(C5_get_partition_set_spec repo0 "p1").1
      ⟨⟨"job1", "modeA", "p1"⟩, by simp [repo0], by decide⟩,
   (C5_get_partition_set_spec repo0 "absent").2
      (by
        intro p hp
        simp [repo0] at hp
        subst hp
        decide)⟩

/-- Helper: the partition-set comparison is transitive. -/
theorem psLe_trans (a b c : ExternalPartitionSet) :
    psLe a b = true → psLe b c = true → psLe a c = true := by
  simp only [psLe, decide_eq_true_eq]
  exact le_trans

/-- Helper: the partition-set comparison is total. -/
theorem psLe_total (a b : ExternalPartitionSet) : (psLe a b || psLe b a) = true := by
  simp only [psLe, Bool.or_eq_true, decide_eq_true_eq]
  exact le_total _ _

/-- Claim C4 (counterexample): calling the listing with the empty string as
the pipeline-name filter returns a partition set whose owning pipeline name
is not the empty string — the falsy filter is skipped rather than applied. -/
theorem C4_counterexample :
    ("job1" : String) ≠ "" ∧
    (get_partition_sets_or_error repo0 (some "")).results =
      [⟨⟨"repo0"⟩, ⟨"job1", "modeA", "p1"⟩⟩] := by
  refine ⟨by decide, ?_⟩
  simp [get_partition_sets_or_error, filtered_partition_sets, repo0, List.mergeSort]

/-- Claim C4 (amended): the listing wraps every result with the repository
handle and sorts ascending by the tuple (pipeline name, mode, partition-set
name); with no filter or with the falsy empty-string filter it returns all
of the repository partition sets, and with a non-empty filter it returns
exactly those whose owning pipeline name equals the filter. -/
theorem C4_partition_sets_listing (repo : ExternalRepository)
    (pipeline_name : Option String) :
    (∀ node ∈ (get_partition_sets_or_error repo pipeline_name).results,
      node.external_repository_handle = repo.handle) ∧
    List.Pairwise
      (fun a b =>
        psSortKey a.external_partition_set ≤ psSortKey b.external_partition_set)
      (get_partition_sets_or_error repo pipeline_name).results ∧
    ((pipeline_name = none ∨ pipeline_name = some "") →
      ((get_partition_sets_or_error repo pipeline_name).results.map
          (fun node => node.external_partition_set)).Perm repo.partition_sets) ∧
    (∀ s : String, pipeline_name = some s → s ≠ "" →
      ((get_partition_sets_or_error repo pipeline_name).results.map
          (fun node => node.external_partition_set)).Perm
        (repo.partition_sets.filter
          (fun p : ExternalPartitionSet => p.pipeline_name == s))) := by
  have hmap :
      (get_partition_sets_or_error repo pipeline_name).results.map
          (fun node => node.external_partition_set) =
        (filtered_partition_sets repo pipeline_name).mergeSort psLe := by
    simp [get_partition_sets_or_error, List.map_map, Function.comp_def]
  refine ⟨?_, ?_, ?_, ?_⟩
  · intro node hnode
    simp only [get_partition_sets_or_error, List.mem_map] at hnode
    obtain ⟨p, hp, rfl⟩ := hnode
    rfl
  · have hsorted :=
      List.sorted_mergeSort psLe_trans psLe_total
        (filtered_partition_sets repo pipeline_name)
    simp only [get_partition_sets_or_error]
    rw [List.pairwise_map]
    exact hsorted.imp (fun h => by
      have := of_decide_eq_true h
      exact this)
  · intro hnone
    have hfilt : filtered_partition_sets repo pipeline_name = repo.partition_sets := by
      rcases hnone with rfl | rfl <;> simp [filtered_partition_sets]
    rw [hmap, hfilt]
    exact List.mergeSort_perm _ _
  · rintro s rfl hs
    have hfilt : filtered_partition_sets repo (some s) =
        repo.partition_sets.filter
          (fun p : ExternalPartitionSet => p.pipeline_name == s) := by
      simp only [filtered_partition_sets]
      rw [if_pos hs]
    rw [hmap, hfilt]
    exact List.mergeSort_perm _ _

/-- Witness for C4: the unfiltered listing over the three-set fixture is a
permutation of all its sets, and the listing filtered by the non-empty name
job1 is a permutation of exactly the job1 sets. -/
theorem C4_witness :
    (((get_partition_sets_or_error repo2 none).results.map
        (fun node => node.external_partition_set)).Perm repo2.partition_sets) ∧
    (((get_partition_sets_or_error repo2 (some "job1")).results.map
        (fun node => node.external_partition_set)).Perm
      (repo2.partition_sets.filter
        (fun p : ExternalPartitionSet => p.pipeline_name == "job1"))) :=
  ⟨(C4_partition_sets_listing repo2 none).2.2.1 (Or.inl rfl),
   (C4_partition_sets_listing repo2 (some "job1")).2.2.2 "job1" rfl (by decide)⟩

end FetchPartitionSets
